import Mathlib

/-!
Verification of the ARK server manager controller (src/app.py).

The file embeds the token manager, status reader, action dispatchers and the
main UI flow of the source as pure Lean functions over explicit remote-call
environments, and settles the frozen claims about them.

Remote calls are modelled by an explicit result value: a reply carrying the
HTTP status (and payload), or a raised timeout / generic exception, matching
the `try/except` structure of the source. Session state (the stored token) is
threaded explicitly. Display-only side effects (Streamlit widgets, Discord
notifications, log messages inside the API helpers) are not part of any claim
and are omitted; the in-session log list itself is embedded for `log_action`.
-/

namespace ArkServerManager

/-- Result of one remote HTTP call: a reply with payload, or a raised
timeout / generic exception (the two `except` arms of the source). -/
inductive RemoteResult (α : Type) where
  | reply (val : α)
  | timeout
  | exc
deriving DecidableEq

/-- Minimal JSON model, enough for the request bodies the source sends. -/
inductive JVal where
  | jnull
  | jstr (s : String)
  | jobj (fields : List (String × JVal))

/-- Static credential bundle from `get_api_config` (src/app.py lines 151-179). -/
structure Config where
  username : String
  password : String
  tenant_id : String
  server_id : String
deriving DecidableEq

/-- Identity endpoint of the c3j1 region (src/app.py line 182). -/
def AUTH_ENDPOINT : String := "https://identity.c3j1.conoha.io/v3/auth/tokens"

/-- Compute endpoint (src/app.py lines 184-186). -/
def get_compute_endpoint (tenant_id : String) : String :=
  "https://compute.c3j1.conoha.io/v2.1/" ++ tenant_id

/-- Reply of the identity endpoint: HTTP status plus the optional
X-Subject-Token response header. -/
structure AuthReply where
  status : Nat
  subjectToken : Option String
deriving DecidableEq

/-- Embedding of `get_auth_token` (src/app.py lines 201-245): on a 201 reply
the X-Subject-Token header (possibly absent) is stored and returned; any other
status, a timeout, or an exception yields `none`. -/
def get_auth_token (r : RemoteResult AuthReply) : Option String :=
  match r with
  | .reply rep => if rep.status = 201 then rep.subjectToken else none
  | .timeout => none
  | .exc => none

/-- Raw server document of a status reply, restricted to the fields the source
reads. `task_state` is carried by provider replies but the source never reads
it; it is kept here so that claims about task-state handling can be stated. -/
structure ServerJson where
  status : String
  name : Option String
  created : Option String
  addresses : Option (List (String × String))
  power_state : Option Nat
  task_state : Option String
deriving DecidableEq

/-- Parsed descriptor returned by `get_server_status` on a 200 reply
(src/app.py lines 268-274), with the defaulting the source applies. -/
structure ServerDesc where
  status : String
  name : String
  created : String
  addresses : List (String × String)
  power_state : Nat
deriving DecidableEq

/-- The dictionary built at src/app.py lines 268-274. -/
def parse_server (s : ServerJson) : ServerDesc :=
  { status := s.status
    name := s.name.getD "Unknown"
    created := s.created.getD ""
    addresses := s.addresses.getD []
    power_state := s.power_state.getD 0 }

/-- Reply of a resource read: HTTP status plus the server document. -/
structure ReadReply where
  status : Nat
  server : ServerJson
deriving DecidableEq

/-- Result of one `get_server_status` call: the session token afterwards, the
returned value (a parsed descriptor or None), the `last_update` write performed
on a 200 reply (none means no write), and counters for the GET requests and
`get_auth_token` calls issued. `envExhausted` flags that the supplied remote
environment ran out of entries, so the run is not fully modelled. -/
structure GssResult where
  token : Option String
  result : Option ServerDesc
  lastUpdate : Option Nat
  readsIssued : Nat
  authCalls : Nat
  envExhausted : Bool
deriving DecidableEq

/-- Worker for `get_server_status` once a token `t` is held: one GET is
issued. A 200 reply parses the document and records `last_update := now`; a
timeout, an exception, or any status other than 200 and 401 yields None; a 401
performs the retry of src/app.py lines 275-278: the token is overwritten with
a fresh `get_auth_token` result and the whole read is reissued. The token
re-ensuring done by the recursive call at line 278 when that acquisition
failed is inlined here: one more acquisition is attempted (the line 250 prelude
of the re-entered call), and if it also fails the re-entered call returns None
at line 253. The recursion is driven by the list of read replies, one entry
per GET; an empty list marks an exhausted environment, not program behavior. -/
def gss_go (now : Nat) : String → List (RemoteResult AuthReply) →
    List (RemoteResult ReadReply) → GssResult
  | t, _, [] =>
    { token := some t, result := none, lastUpdate := none,
      readsIssued := 0, authCalls := 0, envExhausted := true }
  | t, _, .timeout :: _ =>
    { token := some t, result := none, lastUpdate := none,
      readsIssued := 1, authCalls := 0, envExhausted := false }
  | t, _, .exc :: _ =>
    { token := some t, result := none, lastUpdate := none,
      readsIssued := 1, authCalls := 0, envExhausted := false }
  | t, auths, .reply rep :: rest =>
    if rep.status = 200 then
      { token := some t, result := some (parse_server rep.server),
        lastUpdate := some now, readsIssued := 1, authCalls := 0,
        envExhausted := false }
    else if rep.status = 401 then
      match auths with
      | [] =>
        { token := none, result := none, lastUpdate := none,
          readsIssued := 1, authCalls := 0, envExhausted := true }
      | a :: arest =>
        match get_auth_token a with
        | some t2 =>
          let k := gss_go now t2 arest rest
          { k with readsIssued := 1 + k.readsIssued,
                   authCalls := 1 + k.authCalls }
        | none =>
          match arest with
          | [] =>
            { token := none, result := none, lastUpdate := none,
              readsIssued := 1, authCalls := 1, envExhausted := true }
          | a2 :: arest2 =>
            match get_auth_token a2 with
            | none =>
              { token := none, result := none, lastUpdate := none,
                readsIssued := 1, authCalls := 2, envExhausted := false }
            | some t3 =>
              let k := gss_go now t3 arest2 rest
              { k with readsIssued := 1 + k.readsIssued,
                       authCalls := 2 + k.authCalls }
    else
      { token := some t, result := none, lastUpdate := none,
        readsIssued := 1, authCalls := 0, envExhausted := false }

/-- Embedding of `get_server_status` (src/app.py lines 247-287). If no token is
stored one acquisition is attempted; if still no token, None is returned with
no GET issued (lines 249-253). With a token held, `gss_go` issues the GET and
handles the reply, including the recursive 401 retry. -/
def get_server_status (now : Nat) (tok : Option String)
    (auths : List (RemoteResult AuthReply))
    (reads : List (RemoteResult ReadReply)) : GssResult :=
  match tok with
  | some t => gss_go now t auths reads
  | none =>
    match auths with
    | [] =>
      { token := none, result := none, lastUpdate := none,
        readsIssued := 0, authCalls := 0, envExhausted := true }
    | a :: arest =>
      match get_auth_token a with
      | none =>
        { token := none, result := none, lastUpdate := none,
          readsIssued := 0, authCalls := 1, envExhausted := false }
      | some t =>
        let k := gss_go now t arest reads
        { k with authCalls := 1 + k.authCalls }

/-- The POST issued by an action helper: target URL, the X-Auth-Token header
value (the source sends whatever the token variable holds, absent included),
and the JSON body. The method is always POST. -/
structure ActionRequest where
  url : String
  tokenHeader : Option String
  body : JVal

/-- Result of one action helper call: session token afterwards, the boolean
the helper returns, the POST it issued, and the auth calls made. -/
structure VpsActionResult where
  token : Option String
  success : Bool
  request : ActionRequest
  authCalls : Nat

/-- URL of the action sub-resource used by all three helpers. -/
def vps_action_url (c : Config) : String :=
  get_compute_endpoint c.tenant_id ++ "/servers/" ++ c.server_id ++ "/action"

/-- Common embedding of `start_vps` / `stop_vps` / `reboot_vps`
(src/app.py lines 289-365): ensure a token (without failing fast when the
attempt yields none), issue the POST with the given body, return True exactly
when the reply status is 202; any other status, or an exception raised by the
call, returns False. -/
def vps_action (c : Config) (body : JVal) (tok : Option String)
    (auths : List (RemoteResult AuthReply)) (resp : RemoteResult Nat) :
    VpsActionResult :=
  let tokAndCalls : Option String × Nat :=
    match tok with
    | some t => (some t, 0)
    | none =>
      match auths with
      | [] => (none, 0)
      | a :: _ => (get_auth_token a, 1)
  let req : ActionRequest :=
    { url := vps_action_url c, tokenHeader := tokAndCalls.1, body := body }
  match resp with
  | .timeout =>
    { token := tokAndCalls.1, success := false, request := req,
      authCalls := tokAndCalls.2 }
  | .exc =>
    { token := tokAndCalls.1, success := false, request := req,
      authCalls := tokAndCalls.2 }
  | .reply s =>
    { token := tokAndCalls.1, success := s == 202, request := req,
      authCalls := tokAndCalls.2 }

/-- Body sent by `start_vps` (src/app.py line 301). -/
def start_body : JVal := .jobj [("os-start", .jnull)]

/-- Body sent by `stop_vps` (src/app.py line 327). -/
def stop_body : JVal := .jobj [("os-stop", .jnull)]

/-- Body sent by `reboot_vps` (src/app.py line 353): always SOFT. -/
def reboot_body : JVal := .jobj [("reboot", .jobj [("type", .jstr "SOFT")])]

/-- Embedding of `start_vps` (src/app.py lines 289-313). -/
def start_vps (c : Config) (tok : Option String)
    (auths : List (RemoteResult AuthReply)) (resp : RemoteResult Nat) :
    VpsActionResult :=
  vps_action c start_body tok auths resp

/-- Embedding of `stop_vps` (src/app.py lines 315-339). -/
def stop_vps (c : Config) (tok : Option String)
    (auths : List (RemoteResult AuthReply)) (resp : RemoteResult Nat) :
    VpsActionResult :=
  vps_action c stop_body tok auths resp

/-- Embedding of `reboot_vps` (src/app.py lines 341-365). -/
def reboot_vps (c : Config) (tok : Option String)
    (auths : List (RemoteResult AuthReply)) (resp : RemoteResult Nat) :
    VpsActionResult :=
  vps_action c reboot_body tok auths resp

/-- One entry of the in-session operation log. -/
structure LogEntry where
  timestamp : String
  action : String
  status : String
deriving DecidableEq

/-- Embedding of the list update in `log_action` (src/app.py lines 126-146):
append the new entry, then keep only the last 20 entries
(`st.session_state.logs = st.session_state.logs[-20:]`). The Python slice
`l[-20:]` is the whole list when it has at most 20 elements, else its last 20,
which is `l.drop (l.length - 20)` with truncated subtraction. -/
def log_action (logs : List LogEntry) (e : LogEntry) : List LogEntry :=
  let appended := logs ++ [e]
  appended.drop (appended.length - 20)

/-- The four buttons of the management panel (src/app.py lines 484-539). -/
inductive BtnKind where
  | start
  | stop
  | reboot
  | refresh
deriving DecidableEq

/-- Whether a button is rendered enabled, from the `disabled=` arguments at
src/app.py lines 487, 504, 520 (the refresh button is always enabled). This is
the only admission check the source performs before dispatching an action. -/
def button_enabled (status : String) : BtnKind → Bool
  | .start => !(status == "ACTIVE")
  | .stop => !(status == "SHUTOFF")
  | .reboot => status == "ACTIVE"
  | .refresh => true

/-- Visible result of one script run: the status read failed (error panel), the
panel was displayed with no action taken, or an action helper ran with the
given boolean result. -/
inductive RunOutcome where
  | noServer
  | displayed
  | dispatched (success : Bool)
deriving DecidableEq

/-- Result of one run of `main` (post password check): session token
afterwards, the status read performed by the run, the visible outcome, the
POST issued by an action (if any), whether `st.rerun()` was requested, and the
`time.sleep` the run performed before it. -/
structure RunResult where
  token : Option String
  statusRead : GssResult
  outcome : RunOutcome
  actionRequest : Option ActionRequest
  rerunRequested : Bool
  sleepSeconds : Nat

/-- Remote environment and user interaction of one script run: replies for the
status read (and its auth calls), the clicked button if any, and replies for
the action helper (its auth calls and its POST). -/
structure RunInput where
  reads : List (RemoteResult ReadReply)
  auths : List (RemoteResult AuthReply)
  click : Option BtnKind
  actionAuths : List (RemoteResult AuthReply)
  actionResp : RemoteResult Nat

/-- Embedding of one run of `main` (src/app.py lines 370-677, the VPS panel
part). Every run performs one `get_server_status`. If it returned a server,
the clicked button runs if enabled: an action helper fires, and on success the
run sleeps 3 seconds and requests a rerun (lines 492-531); the refresh button
requests a rerun directly (line 539). If the read failed, the error panel is
shown and the retry button clears the token and requests a rerun
(lines 654-658). No other admission state exists in the source: there is no
in-flight flag, no cooldown record, and no polling loop. -/
def run_main (c : Config) (now : Nat) (tok : Option String) (i : RunInput) :
    RunResult :=
  let g := get_server_status now tok i.auths i.reads
  match g.result with
  | none =>
    match i.click with
    | some .refresh =>
      { token := none, statusRead := g, outcome := .noServer,
        actionRequest := none, rerunRequested := true, sleepSeconds := 0 }
    | _ =>
      { token := g.token, statusRead := g, outcome := .noServer,
        actionRequest := none, rerunRequested := false, sleepSeconds := 0 }
  | some server =>
    match i.click with
    | none =>
      { token := g.token, statusRead := g, outcome := .displayed,
        actionRequest := none, rerunRequested := false, sleepSeconds := 0 }
    | some .refresh =>
      { token := g.token, statusRead := g, outcome := .displayed,
        actionRequest := none, rerunRequested := true, sleepSeconds := 0 }
    | some .start =>
      if button_enabled server.status .start then
        let a := start_vps c g.token i.actionAuths i.actionResp
        { token := a.token, statusRead := g, outcome := .dispatched a.success,
          actionRequest := some a.request, rerunRequested := a.success,
          sleepSeconds := if a.success then 3 else 0 }
      else
        { token := g.token, statusRead := g, outcome := .displayed,
          actionRequest := none, rerunRequested := false, sleepSeconds := 0 }
    | some .stop =>
      if button_enabled server.status .stop then
        let a := stop_vps c g.token i.actionAuths i.actionResp
        { token := a.token, statusRead := g, outcome := .dispatched a.success,
          actionRequest := some a.request, rerunRequested := a.success,
          sleepSeconds := if a.success then 3 else 0 }
      else
        { token := g.token, statusRead := g, outcome := .displayed,
          actionRequest := none, rerunRequested := false, sleepSeconds := 0 }
    | some .reboot =>
      if button_enabled server.status .reboot then
        let a := reboot_vps c g.token i.actionAuths i.actionResp
        { token := a.token, statusRead := g, outcome := .dispatched a.success,
          actionRequest := some a.request, rerunRequested := a.success,
          sleepSeconds := if a.success then 3 else 0 }
      else
        { token := g.token, statusRead := g, outcome := .displayed,
          actionRequest := none, rerunRequested := false, sleepSeconds := 0 }

/-- A sequence of runs: each run is tagged with the wall-clock time at which
it happens and threads the session token to the next one. The time tag is
bookkeeping only — the source consults no clock when admitting an action, so
no result field can depend on it. -/
def run_trace (c : Config) (tok : Option String) :
    List (Nat × RunInput) → List RunResult
  | [] => []
  | (now, i) :: rest =>
    let r := run_main c now tok i
    r :: run_trace c r.token rest

/-- Sample configuration for concrete runs. -/
def cfg0 : Config :=
  { username := "user", password := "pw", tenant_id := "tenant",
    server_id := "server" }

/-- Auth reply carrying a fresh token (a successful 201 exchange). -/
def authOk (t : String) : RemoteResult AuthReply :=
  .reply { status := 201, subjectToken := some t }

/-- Server document with no interesting fields (payload of error replies). -/
def emptyServer : ServerJson :=
  { status := "", name := none, created := none, addresses := none,
    power_state := none, task_state := none }

/-- A running server, quiescent. -/
def activeServer : ServerJson :=
  { status := "ACTIVE", name := some "ARK Server", created := none,
    addresses := none, power_state := some 1, task_state := none }

/-- A stopped server, quiescent. -/
def shutoffServer : ServerJson :=
  { status := "SHUTOFF", name := some "ARK Server", created := none,
    addresses := none, power_state := some 4, task_state := none }

/-- A server still powering on: the task state is present, so the resource is
mid-transition and not quiescent. -/
def bootingServer : ServerJson :=
  { status := "SHUTOFF", name := some "ARK Server", created := none,
    addresses := none, power_state := some 4, task_state := some "powering-on" }

/-- A server still powering off: task state present, status still ACTIVE. -/
def stoppingServer : ServerJson :=
  { status := "ACTIVE", name := some "ARK Server", created := none,
    addresses := none, power_state := some 1,
    task_state := some "powering-off" }

/-- Run input: one successful status read of `srv`, then a click on the start
button, whose POST is accepted with 202. -/
def startInputFor (srv : ServerJson) : RunInput :=
  { reads := [.reply { status := 200, server := srv }], auths := [],
    click := some .start, actionAuths := [], actionResp := .reply 202 }

/-- Run input: one successful status read of `srv`, then a click on the stop
button, whose POST is accepted with 202. -/
def stopInputFor (srv : ServerJson) : RunInput :=
  { reads := [.reply { status := 200, server := srv }], auths := [],
    click := some .stop, actionAuths := [], actionResp := .reply 202 }

/-- Run input: one successful status read of `srv` and no click (the automatic
rerun triggered after a dispatched action). -/
def idleInput (srv : ServerJson) : RunInput :=
  { reads := [.reply { status := 200, server := srv }], auths := [],
    click := none, actionAuths := [], actionResp := .exc }

/-- A read reply with status 401 (stale token). -/
def read401 : RemoteResult ReadReply :=
  .reply { status := 401, server := emptyServer }

/-- A read reply with status 200 carrying `srv`. -/
def read200 (srv : ServerJson) : RemoteResult ReadReply :=
  .reply { status := 200, server := srv }

/-- Unfolding lemma for the 401 branch of `get_server_status`: with a token
stored and a fresh auth reply available, a 401 read overwrites the token with
the newly acquired one and recursively reissues the whole call, adding one GET
and one auth call to the counts of the recursive run. -/
theorem gss_401_step (now : Nat) (t t2 : String)
    (arest : List (RemoteResult AuthReply))
    (rest : List (RemoteResult ReadReply)) :
    (get_server_status now (some t) (authOk t2 :: arest)
        (read401 :: rest)).result
      = (get_server_status now (some t2) arest rest).result ∧
    (get_server_status now (some t) (authOk t2 :: arest)
        (read401 :: rest)).readsIssued
      = 1 + (get_server_status now (some t2) arest rest).readsIssued ∧
    (get_server_status now (some t) (authOk t2 :: arest)
        (read401 :: rest)).authCalls
      = 1 + (get_server_status now (some t2) arest rest).authCalls :=
  ⟨rfl, rfl, rfl⟩

/-- C9: after every call to `log_action`, the in-session log list contains at
most 20 entries, and those entries are the most recent records in
chronological order: the result has length `min (old length + 1) 20` and is a
suffix of the old list with the new entry appended. -/
theorem c9_log_keeps_last_20 (logs : List LogEntry) (e : LogEntry) :
    (log_action logs e).length = min (logs.length + 1) 20 ∧
    (log_action logs e).length ≤ 20 ∧
    (log_action logs e) <:+ (logs ++ [e]) := by
  refine ⟨?_, ?_, ?_⟩
  · simp [log_action]
    omega
  · simp [log_action]
    omega
  · exact List.drop_suffix _ _

/-- C8: each action helper sends a POST to the action sub-resource of the
managed server, with a JSON body that is exactly one action tag and nothing
else; the reboot body always specifies SOFT mode. -/
theorem c8_action_payloads (c : Config) (tok : Option String)
    (auths : List (RemoteResult AuthReply)) (resp : RemoteResult Nat) :
    ((start_vps c tok auths resp).request.url
        = get_compute_endpoint c.tenant_id ++ "/servers/" ++ c.server_id
          ++ "/action" ∧
      (start_vps c tok auths resp).request.body
        = JVal.jobj [("os-start", JVal.jnull)]) ∧
    ((stop_vps c tok auths resp).request.url
        = get_compute_endpoint c.tenant_id ++ "/servers/" ++ c.server_id
          ++ "/action" ∧
      (stop_vps c tok auths resp).request.body
        = JVal.jobj [("os-stop", JVal.jnull)]) ∧
    ((reboot_vps c tok auths resp).request.url
        = get_compute_endpoint c.tenant_id ++ "/servers/" ++ c.server_id
          ++ "/action" ∧
      (reboot_vps c tok auths resp).request.body
        = JVal.jobj [("reboot", JVal.jobj [("type", JVal.jstr "SOFT")])]) := by
  cases resp <;> exact ⟨⟨rfl, rfl⟩, ⟨rfl, rfl⟩, ⟨rfl, rfl⟩⟩

/-- C7: every controller operation returns a typed outcome for every remote
response; a network timeout or exception raised by the remote call is caught
and converted into the failure value of the operation (None for the token
acquisition and the status read, False for the three action helpers), never
propagated. -/
theorem c7_exceptions_become_typed_outcomes (now : Nat) (t : String)
    (c : Config) (auths : List (RemoteResult AuthReply))
    (rest : List (RemoteResult ReadReply)) (tok : Option String) :
    get_auth_token .timeout = none ∧
    get_auth_token .exc = none ∧
    (get_server_status now (some t) auths (.timeout :: rest)).result = none ∧
    (get_server_status now (some t) auths (.exc :: rest)).result = none ∧
    (start_vps c tok auths .timeout).success = false ∧
    (start_vps c tok auths .exc).success = false ∧
    (stop_vps c tok auths .timeout).success = false ∧
    (stop_vps c tok auths .exc).success = false ∧
    (reboot_vps c tok auths .timeout).success = false ∧
    (reboot_vps c tok auths .exc).success = false := by
  refine ⟨rfl, rfl, ?_, ?_, rfl, rfl, rfl, rfl, rfl, rfl⟩ <;>
    simp [get_server_status, gss_go]

/-- C2 counterexample: a Stop dispatched against a resource already shut off
is classified as a failure by the code for a 409 conflict reply, and also for
200 and 204; only 202 is treated as success, and there is no
AlreadyInTargetState classification at all (each helper returns a bare
boolean). This refutes the claim that 200, 204 and 409 all yield a success. -/
theorem c2_cex_conflict_and_2xx_rejected :
    (stop_vps cfg0 (some "tok") [] (.reply 409)).success = false ∧
    (stop_vps cfg0 (some "tok") [] (.reply 200)).success = false ∧
    (stop_vps cfg0 (some "tok") [] (.reply 204)).success = false ∧
    (stop_vps cfg0 (some "tok") [] (.reply 202)).success = true ∧
    (start_vps cfg0 (some "tok") [] (.reply 409)).success = false :=
  ⟨rfl, rfl, rfl, rfl, rfl⟩

/-- C2 amended: for every action intent, the dispatch helper classifies a
provider reply as success exactly when its status code is 202; every other
status, 200, 204 and 409 included, is classified as a failure, and no
distinct AlreadyInTargetState outcome exists. -/
theorem c2_amended_only_202_is_success (c : Config) (tok : Option String)
    (auths : List (RemoteResult AuthReply)) (s : Nat) :
    (start_vps c tok auths (.reply s)).success = (s == 202) ∧
    (stop_vps c tok auths (.reply s)).success = (s == 202) ∧
    (reboot_vps c tok auths (.reply s)).success = (s == 202) :=
  ⟨rfl, rfl, rfl⟩

/-- C10: with no stored token and a failing token acquisition, the status read
returns None without issuing the resource GET, while the three action helpers
still issue the POST with an absent token header and classify the reply as
usual (a 202 still yields True). -/
theorem c10_missing_token_paths (now : Nat) (c : Config)
    (a : RemoteResult AuthReply) (reads : List (RemoteResult ReadReply))
    (s : Nat) (h : get_auth_token a = none) :
    get_server_status now none [a] reads =
      { token := none, result := none, lastUpdate := none,
        readsIssued := 0, authCalls := 1, envExhausted := false } ∧
    (start_vps c none [a] (.reply s)).request.tokenHeader = none ∧
    (start_vps c none [a] (.reply 202)).success = true ∧
    (stop_vps c none [a] (.reply s)).request.tokenHeader = none ∧
    (stop_vps c none [a] (.reply 202)).success = true ∧
    (reboot_vps c none [a] (.reply s)).request.tokenHeader = none ∧
    (reboot_vps c none [a] (.reply 202)).success = true := by
  refine ⟨?_, ?_, rfl, ?_, rfl, ?_, rfl⟩
  · simp [get_server_status, h]
  · simp [start_vps, vps_action, h]
  · simp [stop_vps, vps_action, h]
  · simp [reboot_vps, vps_action, h]

/-- C10 witness: the statement of `c10_missing_token_paths` at a concrete
input (a timed-out acquisition attempt). -/
theorem c10_missing_token_paths_witness :
    get_server_status 0 none [RemoteResult.timeout] [] =
      { token := none, result := none, lastUpdate := none,
        readsIssued := 0, authCalls := 1, envExhausted := false } ∧
    (start_vps cfg0 none [RemoteResult.timeout]
        (.reply 500)).request.tokenHeader = none ∧
    (start_vps cfg0 none [RemoteResult.timeout] (.reply 202)).success = true ∧
    (stop_vps cfg0 none [RemoteResult.timeout]
        (.reply 500)).request.tokenHeader = none ∧
    (stop_vps cfg0 none [RemoteResult.timeout] (.reply 202)).success = true ∧
    (reboot_vps cfg0 none [RemoteResult.timeout]
        (.reply 500)).request.tokenHeader = none ∧
    (reboot_vps cfg0 none [RemoteResult.timeout] (.reply 202)).success = true :=
  c10_missing_token_paths 0 cfg0 .timeout [] 500 rfl

/-- C1 counterexample: with a stale token and two consecutive 401 replies from
the status read, the controller does not surface a hard failure after the
second one; it performs a second invalidate-and-acquire cycle, retries a third
read, and succeeds, having issued three GETs and two token acquisitions. This
refutes the claim that the retry count is bounded by one for every sequence of
401 responses. -/
theorem c1_cex_second_consecutive_401_retried_again :
    get_server_status 0 (some "stale") [authOk "tok2", authOk "tok3"]
        [read401, read401, read200 activeServer] =
      { token := some "tok3", result := some (parse_server activeServer),
        lastUpdate := some 0, readsIssued := 3, authCalls := 2,
        envExhausted := false } :=
  rfl

/-- C1 amended: on a 401 from the status read the controller overwrites its
token with a freshly acquired one and recursively reissues the read without
any bound: for every n, a sequence of n consecutive 401 replies followed by a
200 leads to n fresh acquisitions and n + 1 GETs and ends in success; a second
consecutive 401 is retried again rather than surfaced. The recursion stops
only when a non-401 reply arrives or a token acquisition fails. -/
theorem c1_amended_unbounded_401_retry (now : Nat) (t2 : String)
    (srv : ServerJson) (n : Nat) : ∀ t : String,
    (get_server_status now (some t) (List.replicate n (authOk t2))
        (List.replicate n read401 ++ [read200 srv])).result
      = some (parse_server srv) ∧
    (get_server_status now (some t) (List.replicate n (authOk t2))
        (List.replicate n read401 ++ [read200 srv])).readsIssued = n + 1 ∧
    (get_server_status now (some t) (List.replicate n (authOk t2))
        (List.replicate n read401 ++ [read200 srv])).authCalls = n := by
  induction n with
  | zero =>
    intro t
    exact ⟨rfl, rfl, rfl⟩
  | succ n ih =>
    intro t
    obtain ⟨h1, h2, h3⟩ := ih t2
    rw [List.replicate_succ, List.replicate_succ, List.cons_append]
    refine ⟨?_, ?_, ?_⟩
    · rw [(gss_401_step now t t2 (List.replicate n (authOk t2))
        (List.replicate n read401 ++ [read200 srv])).1]
      exact h1
    · rw [(gss_401_step now t t2 (List.replicate n (authOk t2))
        (List.replicate n read401 ++ [read200 srv])).2.1, h2]
      omega
    · rw [(gss_401_step now t t2 (List.replicate n (authOk t2))
        (List.replicate n read401 ++ [read200 srv])).2.2, h3]
      omega

/-- C6 counterexample: the status reader does not map 403 to a distinguished
Unauthorized outcome, and it does retry the read by itself. A 403 reply
produces exactly the same result as a 500 reply (the generic None path), while
a 401 reply makes the reader itself issue a second GET after re-acquiring a
token. This refutes both the 401/403 classification and the claim that the
reader never retries. -/
theorem c6_cex_reader_retries_and_403_generic :
    get_server_status 0 (some "tok") []
        [.reply { status := 403, server := emptyServer }] =
      get_server_status 0 (some "tok") []
        [.reply { status := 500, server := emptyServer }] ∧
    (get_server_status 0 (some "tok") [authOk "tok2"]
        [read401, read200 activeServer]).readsIssued = 2 :=
  ⟨rfl, rfl⟩

/-- C6 amended: per call with a token held, the reader classifies a 200 reply
as a parsed descriptor and any reply whose status is neither 200 nor 401 as
the generic None outcome carrying no Unauthorized distinction (403 included),
in both cases issuing exactly one GET; a 401 reply, however, makes the reader
itself re-acquire a token and reissue the read, adding the retried call on top
of its own single GET. -/
theorem c6_amended_reader_classification (now : Nat) (t t2 : String)
    (rep : ReadReply) (srv : ServerJson)
    (auths arest : List (RemoteResult AuthReply))
    (rest : List (RemoteResult ReadReply))
    (h200 : rep.status ≠ 200) (h401 : rep.status ≠ 401) :
    get_server_status now (some t) auths (.reply rep :: rest) =
      { token := some t, result := none, lastUpdate := none,
        readsIssued := 1, authCalls := 0, envExhausted := false } ∧
    get_server_status now (some t) auths
        (.reply { status := 200, server := srv } :: rest) =
      { token := some t, result := some (parse_server srv),
        lastUpdate := some now, readsIssued := 1, authCalls := 0,
        envExhausted := false } ∧
    (get_server_status now (some t) (authOk t2 :: arest)
        (read401 :: rest)).readsIssued
      = 1 + (get_server_status now (some t2) arest rest).readsIssued := by
  refine ⟨?_, ?_,
    (gss_401_step now t t2 arest rest).2.1⟩
  · rcases auths with _ | ⟨a, _ | ⟨b, arest2⟩⟩ <;>
      simp [get_server_status, gss_go, h200, h401]
  · rcases auths with _ | ⟨a, _ | ⟨b, arest2⟩⟩ <;>
      simp [get_server_status, gss_go, parse_server]

/-- C6 witness: the statement of `c6_amended_reader_classification` at a
concrete input (a 403 reply, then the 200 and 401 shapes). -/
theorem c6_amended_reader_classification_witness :
    get_server_status 0 (some "t") []
        [.reply { status := 403, server := emptyServer }] =
      { token := some "t", result := none, lastUpdate := none,
        readsIssued := 1, authCalls := 0, envExhausted := false } ∧
    get_server_status 0 (some "t") []
        [.reply { status := 200, server := activeServer }] =
      { token := some "t", result := some (parse_server activeServer),
        lastUpdate := some 0, readsIssued := 1, authCalls := 0,
        envExhausted := false } ∧
    (get_server_status 0 (some "t") [authOk "t2"] [read401]).readsIssued
      = 1 + (get_server_status 0 (some "t2") [] []).readsIssued :=
  c6_amended_reader_classification 0 "t" "t2"
    { status := 403, server := emptyServer } activeServer [] [] []
    (by decide) (by decide)

/-- C3 counterexample: a Start is admitted and dispatched while a previous
Start is still being processed. In the first run the resource is SHUTOFF and
quiescent, the Start is dispatched and accepted; in the second run the
resource is still mid-transition (the read shows the task state
powering-on), yet the new Start request is dispatched again and succeeds —
it does not receive any GuardRejected outcome (no such outcome exists in the
code). This refutes the single-flight claim. -/
theorem c3_cex_second_start_dispatched_mid_transition :
    (run_trace cfg0 (some "tok")
        [(0, startInputFor shutoffServer),
         (1, startInputFor bootingServer)]).map RunResult.outcome
      = [RunOutcome.dispatched true, RunOutcome.dispatched true] ∧
    bootingServer.task_state = some "powering-on" :=
  ⟨rfl, rfl⟩

/-- C3 amended: the code keeps no in-flight flag: whether an action request is
dispatched depends only on the clicked button and the status string of that
run's own fresh read (the disabled conditions of the three buttons), never on
any record of a previous or still-running action. Whenever the button is
enabled for the freshly read status, the action helper fires, whatever the
session history; otherwise the click is simply not delivered. All requests
arriving while another action is still in flight are therefore dispatched,
not rejected, whenever their button is enabled. -/
theorem c3_amended_admission_ignores_inflight (c : Config) (now : Nat)
    (tk : String) (srv : ServerJson) (aa : List (RemoteResult AuthReply))
    (resp : RemoteResult Nat) :
    ((run_main c now (some tk)
        { reads := [.reply { status := 200, server := srv }], auths := [],
          click := some .start, actionAuths := aa,
          actionResp := resp }).outcome
      = if button_enabled srv.status .start then
          RunOutcome.dispatched (start_vps c (some tk) aa resp).success
        else RunOutcome.displayed) ∧
    ((run_main c now (some tk)
        { reads := [.reply { status := 200, server := srv }], auths := [],
          click := some .stop, actionAuths := aa,
          actionResp := resp }).outcome
      = if button_enabled srv.status .stop then
          RunOutcome.dispatched (stop_vps c (some tk) aa resp).success
        else RunOutcome.displayed) ∧
    ((run_main c now (some tk)
        { reads := [.reply { status := 200, server := srv }], auths := [],
          click := some .reboot, actionAuths := aa,
          actionResp := resp }).outcome
      = if button_enabled srv.status .reboot then
          RunOutcome.dispatched (reboot_vps c (some tk) aa resp).success
        else RunOutcome.displayed) := by
  refine ⟨?_, ?_, ?_⟩
  · cases hb : button_enabled srv.status BtnKind.start <;>
      simp [run_main, get_server_status, gss_go, parse_server, hb]
  · cases hb : button_enabled srv.status BtnKind.stop <;>
      simp [run_main, get_server_status, gss_go, parse_server, hb]
  · cases hb : button_enabled srv.status BtnKind.reboot <;>
      simp [run_main, get_server_status, gss_go, parse_server, hb]

/-- C4 counterexample: a Stop admitted at time 0 is admitted again at time 1,
well inside any positive cooldown window (the recommended default is 10
seconds): both runs dispatch the Stop and it is accepted. This refutes the
claim that an action kind admitted at time T is never admitted again before
T plus its cooldown. -/
theorem c4_cex_readmitted_one_second_later :
    (run_trace cfg0 (some "tok")
        [(0, stopInputFor stoppingServer),
         (1, stopInputFor stoppingServer)]).map RunResult.outcome
      = [RunOutcome.dispatched true, RunOutcome.dispatched true] ∧
    (1 : Nat) < 0 + 10 :=
  ⟨rfl, by decide⟩

/-- C4 amended: the code records no last-attempt timestamps and enforces no
cooldown: for all run times t1 and t2, two identical Stop requests are both
admitted and dispatched whenever the stop button is enabled by the read
status, and both not delivered otherwise — the elapsed time between them,
including zero or one second, plays no role in admission. -/
theorem c4_amended_no_cooldown_record (c : Config) (t1 t2 : Nat) (tk : String)
    (srv : ServerJson) :
    (run_trace c (some tk)
        [(t1, stopInputFor srv), (t2, stopInputFor srv)]).map RunResult.outcome
      = [if button_enabled srv.status .stop then RunOutcome.dispatched true
         else RunOutcome.displayed,
         if button_enabled srv.status .stop then RunOutcome.dispatched true
         else RunOutcome.displayed] := by
  cases hb : button_enabled srv.status BtnKind.stop <;>
    simp [run_trace, run_main, stopInputFor, get_server_status, gss_go,
      parse_server, stop_vps, vps_action, hb]

/-- C5 counterexample: after an accepted Start dispatch the code does not poll
until the task state clears: it requests exactly one automatic re-read, and
that second run — whose read still shows a present task state (powering-on),
so the resource is not quiescent — requests no further rerun and produces no
quiescent or pending report. This refutes the claim that the loop re-reads
until the task state is absent or a bounded timeout elapses. -/
theorem c5_cex_single_reread_while_task_present :
    (run_trace cfg0 (some "tok")
        [(0, startInputFor shutoffServer),
         (3, idleInput bootingServer)]).map
        (fun r => (r.outcome, r.rerunRequested))
      = [(RunOutcome.dispatched true, true), (RunOutcome.displayed, false)] ∧
    bootingServer.task_state = some "powering-on" :=
  ⟨rfl, rfl⟩

/-- C5 amended: after a dispatch is accepted the code sleeps 3 seconds and
requests exactly one automatic status re-read; that rerun issues one GET,
displays whatever status it read, and requests no further rerun — whatever
the second read shows (the task state is never inspected; there is no polling
loop, no timeout, and no quiescent or pending report). -/
theorem c5_amended_one_reread_then_stop (c : Config) (tk : String)
    (srv1 srv2 : ServerJson)
    (h : button_enabled srv1.status BtnKind.start = true) :
    (run_trace c (some tk)
        [(0, startInputFor srv1), (3, idleInput srv2)]).map
        (fun r =>
          (r.outcome, r.rerunRequested, r.statusRead.readsIssued,
            r.sleepSeconds))
      = [(RunOutcome.dispatched true, true, 1, 3),
         (RunOutcome.displayed, false, 1, 0)] := by
  simp [run_trace, run_main, startInputFor, idleInput, get_server_status,
    gss_go, parse_server, start_vps, vps_action, h]

/-- C5 witness: the statement of `c5_amended_one_reread_then_stop` at a
concrete input (a Start on a shut-off resource, with the rerun reading an
active resource). -/
theorem c5_amended_one_reread_then_stop_witness :
    (run_trace cfg0 (some "tok")
        [(0, startInputFor shutoffServer), (3, idleInput activeServer)]).map
        (fun r =>
          (r.outcome, r.rerunRequested, r.statusRead.readsIssued,
            r.sleepSeconds))
      = [(RunOutcome.dispatched true, true, 1, 3),
         (RunOutcome.displayed, false, 1, 0)] :=
  c5_amended_one_reread_then_stop cfg0 "tok" shutoffServer activeServer
    (by decide)

end ArkServerManager
